import Mathlib

/-!
Verification of the candle-analysis engine of `src/api/bot.js`:
the `TechnicalAnalysis` indicator computations, the `PatternRecognition`
double-top/bottom detector, and the `generateSignal` synthesizer.

Modelling conventions:
* JavaScript numbers are modelled as rationals (`ℚ`); the single use of
  `Math.sqrt` (Bollinger standard deviation) is modelled with `Real.sqrt`.
* `null`/`undefined` results are modelled with `Option`.
* JavaScript truthiness tests on numbers (`!rsi`, `sma20 && sma50`, `!sma`)
  are modelled as "is `none` or is `some 0`", exactly as in the source.
* The rationale strings pushed by `generateSignal` are modelled by the
  inductive `Reason` (one constructor per distinct `reasons.push` site,
  carrying the interpolated oscillator value); the classification strings
  are modelled by `SignalType` together with its `label`, and the
  `String.prototype.includes` tests are substring tests on the labels.
-/

/-- One OHLCV candle, as built in `fetchGoldData`. -/
structure Candle where
  time : Int
  openPrice : ℚ
  high : ℚ
  low : ℚ
  close : ℚ
  volume : ℚ
deriving DecidableEq

/-- A candle whose four price fields are all `c` (used for concrete inputs). -/
def mkCandle (c : ℚ) : Candle := ⟨0, c, c, c, c, 0⟩

/-- `TechnicalAnalysis.calculateSMA`: mean of `close` over the last
`period` candles, `null` when fewer than `period` candles. -/
def calculateSMA (data : List Candle) (period : Nat) : Option ℚ :=
  if data.length < period then none
  else some ((((data.drop (data.length - period)).map Candle.close).sum) / (period : ℚ))

/-- `TechnicalAnalysis.calculateEMA`: seed = mean of the first `period`
closes, then the smoothing recurrence over every remaining candle. -/
def calculateEMA (data : List Candle) (period : Nat) : Option ℚ :=
  if data.length < period then none
  else
    let m : ℚ := 2 / ((period : ℚ) + 1)
    let seed : ℚ := (((data.take period).map Candle.close).sum) / (period : ℚ)
    some ((data.drop period).foldl (fun ema c => c.close * m + ema * (1 - m)) seed)

/-- The close-to-close changes read by `calculateRSI`: for `i = 1 .. period`
the loop forms `data[n-i].close - data[n-i-1].close`; with
`r = (data.map close).reverse` and `j = i - 1` that is `r[j] - r[j+1]`. -/
def rsiChanges (data : List Candle) (period : Nat) : List ℚ :=
  let r := (data.map Candle.close).reverse
  (List.range period).map (fun j => r.getD j 0 - r.getD (j + 1) 0)

/-- Accumulated `gains` of `calculateRSI`: the changes with `change > 0`. -/
def rsiGains (data : List Candle) (period : Nat) : ℚ :=
  ((rsiChanges data period).filter (fun c => decide (0 < c))).sum

/-- Accumulated `losses` of `calculateRSI`: `Math.abs(change)` summed over
the changes with `change <= 0` (the `else` branch of the loop). -/
def rsiLosses (data : List Candle) (period : Nat) : ℚ :=
  (((rsiChanges data period).filter (fun c => !decide (0 < c))).map (fun c => |c|)).sum

/-- `TechnicalAnalysis.calculateRSI`: `null` below `period + 1` candles;
`100` when the average loss is zero; otherwise `100 - 100/(1 + rs)`. -/
def calculateRSI (data : List Candle) (period : Nat) : Option ℚ :=
  if data.length < period + 1 then none
  else
    let avgGain := rsiGains data period / (period : ℚ)
    let avgLoss := rsiLosses data period / (period : ℚ)
    if avgLoss = 0 then some 100
    else some (100 - 100 / (1 + avgGain / avgLoss))

/-- The `{upper, middle, lower, width}` object of `calculateBollingerBands`
(`α = ℝ` for the computation, `α = ℚ` for the synthesizer's input). -/
structure Bands (α : Type) where
  upper : α
  middle : α
  lower : α
  width : α
deriving DecidableEq

/-- `TechnicalAnalysis.calculateBollingerBands`: population variance of the
trailing window around the SMA, `stdDev = Math.sqrt(variance)`; the
`if (!sma) return null` test is the JavaScript falsiness test, so a zero
SMA also yields `null`. -/
noncomputable def calculateBollingerBands (data : List Candle) (period : Nat)
    (multiplier : ℚ) : Option (Bands ℝ) :=
  if data.length < period then none
  else
    match calculateSMA data period with
    | none => none
    | some sma =>
      if sma = 0 then none
      else
        let slice := data.drop (data.length - period)
        let variance : ℚ := ((slice.map (fun c => (c.close - sma) ^ 2)).sum) / (period : ℚ)
        let stdDev : ℝ := Real.sqrt (variance : ℝ)
        some { upper := (sma : ℝ) + stdDev * (multiplier : ℝ)
               middle := (sma : ℝ)
               lower := (sma : ℝ) - stdDev * (multiplier : ℝ)
               width := stdDev * (multiplier : ℝ) * 2 / (sma : ℝ) * 100 }

/-- The `high` of `data[i]` (`0` out of range; only used in range). -/
def highAt (data : List Candle) (i : Nat) : ℚ :=
  ((data.get? i).map Candle.high).getD 0

/-- The `low` of `data[i]` (`0` out of range; only used in range). -/
def lowAt (data : List Candle) (i : Nat) : ℚ :=
  ((data.get? i).map Candle.low).getD 0

/-- The local highs collected by `detectDoubleTopBottom`: interior indices
whose `high` strictly exceeds both neighbours, as `(index, price)` pairs. -/
def localHighs (data : List Candle) : List (Nat × ℚ) :=
  (List.range data.length).filterMap (fun i =>
    if 1 ≤ i ∧ i + 1 < data.length ∧
        highAt data (i - 1) < highAt data i ∧ highAt data (i + 1) < highAt data i
    then some (i, highAt data i) else none)

/-- The local lows collected by `detectDoubleTopBottom`. -/
def localLows (data : List Candle) : List (Nat × ℚ) :=
  (List.range data.length).filterMap (fun i =>
    if 1 ≤ i ∧ i + 1 < data.length ∧
        lowAt data i < lowAt data (i - 1) ∧ lowAt data i < lowAt data (i + 1)
    then some (i, lowAt data i) else none)

/-- `xs.slice(-2)` guarded by `xs.length >= 2`: the two most recent entries. -/
def lastTwo {α : Type} (l : List α) : Option (α × α) :=
  match l.drop (l.length - 2) with
  | [a, b] => some (a, b)
  | _ => none

/-- `Pattern.type` values. -/
inductive PatternType
  | DOUBLE_TOP
  | DOUBLE_BOTTOM
deriving DecidableEq

/-- A detected pattern: `level` is the `resistance` (double top) or
`support` (double bottom) price of the emitted object. -/
structure Pattern where
  ptype : PatternType
  confidence : ℚ
  description : String
  level : ℚ
deriving DecidableEq

/-- Description string of the emitted double-top object. -/
def topDesc : String := "Potential reversal - Consider SELL"

/-- Description string of the emitted double-bottom object. -/
def bottomDesc : String := "Potential reversal - Consider BUY"

/-- The double-top half of `detectDoubleTopBottom`: from the two most
recent local highs `a` and `b`, with `priceDiff = |a.2 - b.2|` and
`avgPrice = (a.2 + b.2) / 2`, emit when `priceDiff / avgPrice < 0.01`. -/
def doubleTops (data : List Candle) : List Pattern :=
  match lastTwo (localHighs data) with
  | some (a, b) =>
    if |a.2 - b.2| / ((a.2 + b.2) / 2) < 1 / 100 then
      [{ ptype := PatternType.DOUBLE_TOP, confidence := 75,
         description := topDesc, level := (a.2 + b.2) / 2 }]
    else []
  | none => []

/-- The double-bottom half of `detectDoubleTopBottom`. -/
def doubleBottoms (data : List Candle) : List Pattern :=
  match lastTwo (localLows data) with
  | some (a, b) =>
    if |a.2 - b.2| / ((a.2 + b.2) / 2) < 1 / 100 then
      [{ ptype := PatternType.DOUBLE_BOTTOM, confidence := 75,
         description := bottomDesc, level := (a.2 + b.2) / 2 }]
    else []
  | none => []

/-- `PatternRecognition.detectDoubleTopBottom`: tops pushed first, then
bottoms, matching the push order of the source. -/
def detectDoubleTopBottom (data : List Candle) : List Pattern :=
  doubleTops data ++ doubleBottoms data

/-- `PatternRecognition.detectPatterns`: empty below 20 candles, otherwise
the double top/bottom scan of the most recent 20 candles. -/
def detectPatterns (data : List Candle) : List Pattern :=
  if data.length < 20 then []
  else detectDoubleTopBottom (data.drop (data.length - 20))

/-- The classification strings assigned to `signal` in `generateSignal`. -/
inductive SignalType
  | NO_DATA
  | HOLD
  | BUY
  | STRONG_BUY
  | SELL
  | STRONG_SELL
deriving DecidableEq

/-- The string value each classification stands for. -/
def SignalType.label : SignalType → String
  | .NO_DATA => "NO_DATA"
  | .HOLD => "HOLD"
  | .BUY => "BUY"
  | .STRONG_BUY => "STRONG_BUY"
  | .SELL => "SELL"
  | .STRONG_SELL => "STRONG_SELL"

/-- `hay.includes(needle)` on strings: the needle occurs contiguously. -/
def strIncludes (hay needle : String) : Bool :=
  decide (List.IsInfix needle.toList hay.toList)

/-- `signal.includes('BUY')`. -/
def includesBUY (s : SignalType) : Bool := strIncludes s.label ("BUY")

/-- `signal.includes('SELL')`. -/
def includesSELL (s : SignalType) : Bool := strIncludes s.label ("SELL")

/-- The rationale strings pushed by `generateSignal`, one constructor per
push site; the oscillator constructors carry the interpolated value. -/
inductive Reason
  | rsiOversold (r : ℚ)
  | rsiLow (r : ℚ)
  | rsiOverbought (r : ℚ)
  | rsiHigh (r : ℚ)
  | bullishMA
  | bearishMA
  | belowLowerBollinger
  | aboveUpperBollinger
deriving DecidableEq

/-- The indicator record read by `generateSignal` from
`marketDataCache.indicators`. -/
structure Indicators where
  sma20 : Option ℚ
  sma50 : Option ℚ
  ema12 : Option ℚ
  rsi : Option ℚ
  bollinger : Option (Bands ℚ)
deriving DecidableEq

/-- The object returned by `generateSignal`; the short `NO_DATA` return
carries no reasons, price, indicators or patterns. -/
structure TradeSignal where
  signal : SignalType
  confidence : ℚ
  reasons : List Reason
  price : Option ℚ
  indicators : Option Indicators
  patterns : List Pattern
deriving DecidableEq

/-- The `{ signal: 'NO_DATA', confidence: 0 }` early return. -/
def noDataSignal : TradeSignal :=
  { signal := SignalType.NO_DATA, confidence := 0, reasons := [],
    price := none, indicators := none, patterns := [] }

/-- The classification set by the RSI block of `generateSignal`. -/
def rsiSignal (r : ℚ) : SignalType :=
  if r < 25 then SignalType.STRONG_BUY
  else if r < 35 then SignalType.BUY
  else if 75 < r then SignalType.STRONG_SELL
  else if 65 < r then SignalType.SELL
  else SignalType.HOLD

/-- The confidence added by the RSI block of `generateSignal`. -/
def rsiConf (r : ℚ) : ℚ :=
  if r < 25 then 40
  else if r < 35 then 25
  else if 75 < r then 40
  else if 65 < r then 25
  else 0

/-- The reasons pushed by the RSI block of `generateSignal`. -/
def rsiReasons (r : ℚ) : List Reason :=
  if r < 25 then [Reason.rsiOversold r]
  else if r < 35 then [Reason.rsiLow r]
  else if 75 < r then [Reason.rsiOverbought r]
  else if 65 < r then [Reason.rsiHigh r]
  else []

/-- Confidence added by the moving-average block: guarded by the truthiness
test `sma20 && sma50`, so a missing or zero average skips the block. -/
def maConf (s20 s50 : Option ℚ) (price : ℚ) (sig : SignalType) : ℚ :=
  match s20, s50 with
  | some a, some b =>
    if a = 0 ∨ b = 0 then 0
    else if a < price ∧ b < a ∧ includesBUY sig then 15
    else if price < a ∧ a < b ∧ includesSELL sig then 15
    else 0
  | _, _ => 0

/-- Reasons pushed by the moving-average block of `generateSignal`. -/
def maReasons (s20 s50 : Option ℚ) (price : ℚ) (sig : SignalType) : List Reason :=
  match s20, s50 with
  | some a, some b =>
    if a = 0 ∨ b = 0 then []
    else if a < price ∧ b < a ∧ includesBUY sig then [Reason.bullishMA]
    else if price < a ∧ a < b ∧ includesSELL sig then [Reason.bearishMA]
    else []
  | _, _ => []

/-- Confidence added by the Bollinger block: an object is always truthy,
so only presence of the bands is tested. -/
def bbConf (bb : Option (Bands ℚ)) (price : ℚ) (sig : SignalType) : ℚ :=
  match bb with
  | some b =>
    if price < b.lower ∧ includesBUY sig then 15
    else if b.upper < price ∧ includesSELL sig then 15
    else 0
  | none => 0

/-- Reasons pushed by the Bollinger block of `generateSignal`. -/
def bbReasons (bb : Option (Bands ℚ)) (price : ℚ) (sig : SignalType) : List Reason :=
  match bb with
  | some b =>
    if price < b.lower ∧ includesBUY sig then [Reason.belowLowerBollinger]
    else if b.upper < price ∧ includesSELL sig then [Reason.aboveUpperBollinger]
    else []
  | none => []

/-- `prices[prices.length - 1].close` (only read on a non-empty list). -/
def lastClose (prices : List Candle) : ℚ :=
  ((prices.getLast?).map Candle.close).getD 0

/-- `generateSignal`, as a function of the cache fields it reads. The
guard `!indicators.rsi || prices.length === 0` is the JavaScript
truthiness test, so an RSI of exactly `0` also takes the `NO_DATA`
return. Afterwards the classification is fixed by the RSI block and the
two confirmation blocks add confidence and reasons; the final confidence
is `Math.min(confidence, 95)` and the patterns are `patterns.slice(0, 3)`. -/
def generateSignal (ind : Indicators) (prices : List Candle)
    (patterns : List Pattern) : TradeSignal :=
  match ind.rsi with
  | none => noDataSignal
  | some r =>
    if r = 0 ∨ prices.length = 0 then noDataSignal
    else
      let price := lastClose prices
      let sig := rsiSignal r
      { signal := sig
        confidence := min (rsiConf r + maConf ind.sma20 ind.sma50 price sig
          + bbConf ind.bollinger price sig) 95
        reasons := rsiReasons r ++ maReasons ind.sma20 ind.sma50 price sig
          ++ bbReasons ind.bollinger price sig
        price := some price
        indicators := some ind
        patterns := patterns.take 3 }

/-- Closes whose last 14 transitions are 13 losses of 1.0 and one change
of 0 (the "gain of 0" of the oversold scenario): the oscillator over the
last 15 closes is exactly 0. -/
def bugCloses : List ℚ :=
  [18, 18, 18, 18, 18, 18, 18, 17, 16, 15, 14, 13, 12, 11, 10, 9, 8, 7, 6, 5]

/-- 20 candles realizing `bugCloses`. -/
def bugData : List Candle := bugCloses.map mkCandle

/-- Five candles with two equal local highs at indices 1 and 3: a double
top fires on them. -/
def wTopData : List Candle :=
  [mkCandle 1, mkCandle 10, mkCandle 1, mkCandle 10, mkCandle 1]

/-- Two candles with negative closes: their mean close is `-2`, so the
Bollinger width comes out negative. -/
def negData : List Candle := [mkCandle (-1), mkCandle (-3)]

/-- The accumulated gains are nonnegative: every filtered change is
positive. -/
theorem rsiGains_nonneg (data : List Candle) (period : Nat) :
    0 ≤ rsiGains data period := by
  apply List.sum_nonneg
  intro x hx
  have hd := (List.mem_filter.mp hx).2
  exact (of_decide_eq_true hd).le

/-- The accumulated losses are nonnegative: a sum of absolute values. -/
theorem rsiLosses_nonneg (data : List Candle) (period : Nat) :
    0 ≤ rsiLosses data period := by
  apply List.sum_nonneg
  intro x hx
  obtain ⟨y, _, rfl⟩ := List.mem_map.mp hx
  exact abs_nonneg y

/-- On a window of constantly equal closes every change read by
`calculateRSI` is zero. -/
theorem rsiChanges_flat (data : List Candle) (c : ℚ) (period : Nat)
    (hlen : period + 1 ≤ data.length) (hc : ∀ x ∈ data, x.close = c) :
    ∀ x ∈ rsiChanges data period, x = 0 := by
  intro x hx
  unfold rsiChanges at hx
  obtain ⟨j, hj, rfl⟩ := List.mem_map.mp hx
  have hj2 : j < period := List.mem_range.mp hj
  have hget : ∀ k, k < ((data.map Candle.close).reverse).length →
      ((data.map Candle.close).reverse).getD k 0 = c := by
    intro k hk
    rw [List.getD_eq_getElem _ _ hk]
    have hmem : ((data.map Candle.close).reverse)[k] ∈ (data.map Candle.close).reverse :=
      List.getElem_mem hk
    rw [List.mem_reverse] at hmem
    obtain ⟨y, hy, hyx⟩ := List.mem_map.mp hmem
    rw [← hyx]
    exact hc y hy
  have hd : ((data.map Candle.close).reverse).length = data.length := by simp
  rw [hget j (by omega), hget (j + 1) (by omega)]
  ring

/-- Every member of `doubleTops` comes from the two most recent local
highs with their relative difference below 1%, and is the fixed
double-top record built on their average. -/
theorem mem_doubleTops {data : List Candle} {p : Pattern} (hp : p ∈ doubleTops data) :
    ∃ a b, lastTwo (localHighs data) = some (a, b) ∧
      |a.2 - b.2| / ((a.2 + b.2) / 2) < 1 / 100 ∧
      p = { ptype := PatternType.DOUBLE_TOP, confidence := 75,
            description := topDesc, level := (a.2 + b.2) / 2 } := by
  unfold doubleTops at hp
  rcases h : lastTwo (localHighs data) with _ | ⟨a, b⟩
  · rw [h] at hp
    simp at hp
  · rw [h] at hp
    by_cases hlt : |a.2 - b.2| / ((a.2 + b.2) / 2) < 1 / 100
    · simp only [hlt, if_true] at hp
      simp at hp
      exact ⟨a, b, rfl, hlt, hp⟩
    · simp only [hlt, if_false] at hp
      simp at hp

/-- Every member of `doubleBottoms` comes from the two most recent local
lows with their relative difference below 1%. -/
theorem mem_doubleBottoms {data : List Candle} {p : Pattern} (hp : p ∈ doubleBottoms data) :
    ∃ a b, lastTwo (localLows data) = some (a, b) ∧
      |a.2 - b.2| / ((a.2 + b.2) / 2) < 1 / 100 ∧
      p = { ptype := PatternType.DOUBLE_BOTTOM, confidence := 75,
            description := bottomDesc, level := (a.2 + b.2) / 2 } := by
  unfold doubleBottoms at hp
  rcases h : lastTwo (localLows data) with _ | ⟨a, b⟩
  · rw [h] at hp
    simp at hp
  · rw [h] at hp
    by_cases hlt : |a.2 - b.2| / ((a.2 + b.2) / 2) < 1 / 100
    · simp only [hlt, if_true] at hp
      simp at hp
      exact ⟨a, b, rfl, hlt, hp⟩
    · simp only [hlt, if_false] at hp
      simp at hp

/-- C1 (code bug): on `bugData` — whose last 14 close-to-close transitions
are 13 losses of 1.0 and one gain of 0 — the oscillator is exactly 0, and
`generateSignal` then returns the NO_DATA record (classification NO_DATA,
confidence 0) for every choice of the remaining indicators and patterns,
because the JavaScript guard treats the falsy value 0 as missing data.
The claim (and the specification) expects STRONG_BUY with confidence at
least 40 here, since 0 is below the oversold threshold 25. -/
theorem rsi_zero_no_data :
    calculateRSI bugData 14 = some 0 ∧
    ∀ (s20 s50 e12 : Option ℚ) (bb : Option (Bands ℚ)) (pats : List Pattern),
      generateSignal ⟨s20, s50, e12, calculateRSI bugData 14, bb⟩ bugData pats =
        noDataSignal := by
  have h : rsiChanges bugData 14 =
      [-1, -1, -1, -1, -1, -1, -1, -1, -1, -1, -1, -1, -1, 0] := by
    norm_num [rsiChanges, bugData, bugCloses, mkCandle, List.range_succ, List.getD]
  have hg : rsiGains bugData 14 = 0 := by
    rw [rsiGains, h]; norm_num [List.filter]
  have hl : rsiLosses bugData 14 = 13 := by
    rw [rsiLosses, h]; norm_num [List.filter]
  have hlen : bugData.length = 20 := by simp [bugData, bugCloses]
  have hrsi : calculateRSI bugData 14 = some 0 := by
    rw [calculateRSI, if_neg (by omega), hg, hl]
    norm_num
  exact ⟨hrsi, fun s20 s50 e12 bb pats => by simp [generateSignal, hrsi]⟩

/-- C2: for any data of length at least `period + 1` (`period ≥ 1`) the
oscillator returns a value in the closed interval `[0, 100]`, and when the
sum of downward changes over the window is zero it returns exactly 100. -/
theorem calculateRSI_bounds (data : List Candle) (period : Nat)
    (hp : 1 ≤ period) (hl : period + 1 ≤ data.length) :
    (∃ r, calculateRSI data period = some r ∧ 0 ≤ r ∧ r ≤ 100) ∧
    (rsiLosses data period = 0 → calculateRSI data period = some 100) := by
  have hguard : ¬ data.length < period + 1 := by omega
  have hpq : (0 : ℚ) < (period : ℚ) := by exact_mod_cast hp
  by_cases hz : rsiLosses data period / (period : ℚ) = 0
  · exact ⟨⟨100, by simp [calculateRSI, hguard, hz], by norm_num, by norm_num⟩,
      fun _ => by simp [calculateRSI, hguard, hz]⟩
  · have hlz : 0 < rsiLosses data period / (period : ℚ) :=
      lt_of_le_of_ne (div_nonneg (rsiLosses_nonneg _ _) hpq.le) (Ne.symm hz)
    have hg : 0 ≤ rsiGains data period / (period : ℚ) :=
      div_nonneg (rsiGains_nonneg _ _) hpq.le
    have hrs : 0 ≤ (rsiGains data period / (period : ℚ)) /
        (rsiLosses data period / (period : ℚ)) := div_nonneg hg hlz.le
    have h1 : (0 : ℚ) < 1 + (rsiGains data period / (period : ℚ)) /
        (rsiLosses data period / (period : ℚ)) := by linarith
    have hle : 100 / (1 + (rsiGains data period / (period : ℚ)) /
        (rsiLosses data period / (period : ℚ))) ≤ 100 := by
      rw [div_le_iff₀ h1]; nlinarith
    have hnn : (0 : ℚ) ≤ 100 / (1 + (rsiGains data period / (period : ℚ)) /
        (rsiLosses data period / (period : ℚ))) := by positivity
    refine ⟨⟨100 - 100 / (1 + (rsiGains data period / (period : ℚ)) /
        (rsiLosses data period / (period : ℚ))), ?_, by linarith, by linarith⟩,
      fun h0 => ?_⟩
    · simp [calculateRSI, hguard, hz]
    · exact absurd (by rw [h0]; simp) hz

/-- Witness for C2: two rising closes with period 1 hit the zero-loss
branch and give exactly 100. -/
theorem calculateRSI_bounds_witness :
    calculateRSI [mkCandle 1, mkCandle 2] 1 = some 100 :=
  (calculateRSI_bounds [mkCandle 1, mkCandle 2] 1 (by norm_num) (by simp)).2
    (by norm_num [rsiLosses, rsiChanges, mkCandle, List.range_succ, List.getD, List.filter])

/-- C3: every indicator on data shorter than its window is absent — the
moving averages and bands below `period` candles, the oscillator below
`period + 1` candles (all functions are total, so no exception exists). -/
theorem indicators_short_none (data : List Candle) (period : Nat) (mult : ℚ) :
    (data.length < period →
      calculateSMA data period = none ∧ calculateEMA data period = none ∧
        calculateBollingerBands data period mult = none) ∧
    (data.length < period + 1 → calculateRSI data period = none) := by
  constructor
  · intro h
    refine ⟨?_, ?_, ?_⟩ <;>
      simp [calculateSMA, calculateEMA, calculateBollingerBands, h]
  · intro h
    simp [calculateRSI, h]

/-- Witness for C3: the empty sequence with period 1 yields no indicator. -/
theorem indicators_short_none_witness :
    (calculateSMA [] 1 = none ∧ calculateEMA [] 1 = none ∧
      calculateBollingerBands [] 1 2 = none) ∧ calculateRSI [] 1 = none :=
  ⟨(indicators_short_none [] 1 2).1 (by simp), (indicators_short_none [] 1 2).2 (by simp)⟩

/-- C4 (amended): whenever the bands are returned and the multiplier is
nonnegative, `lower ≤ middle ≤ upper`; the width is nonnegative whenever
the middle band (the mean close) is positive. The unconditional
`width ≥ 0` of the claim fails for a negative mean close, see the
counterexample. -/
theorem bollinger_order (data : List Candle) (period : Nat) (mult : ℚ)
    (hm : 0 ≤ mult) (b : Bands ℝ)
    (hb : calculateBollingerBands data period mult = some b) :
    b.lower ≤ b.middle ∧ b.middle ≤ b.upper ∧ (0 < b.middle → 0 ≤ b.width) := by
  unfold calculateBollingerBands at hb
  split at hb
  · exact absurd hb (by simp)
  · split at hb
    · exact absurd hb (by simp)
    · rename_i sma hsma
      split at hb
      · exact absurd hb (by simp)
      · rename_i hzero
        injection hb with hb
        subst hb
        have hs : (0 : ℝ) ≤ Real.sqrt
            ((((data.drop (data.length - period)).map
              (fun c => (c.close - sma) ^ 2)).sum / (period : ℚ) : ℚ) : ℝ) :=
          Real.sqrt_nonneg _
        have hm2 : (0 : ℝ) ≤ (mult : ℚ) := by exact_mod_cast hm
        have hsm : (0 : ℝ) ≤ Real.sqrt
            ((((data.drop (data.length - period)).map
              (fun c => (c.close - sma) ^ 2)).sum / (period : ℚ) : ℚ) : ℝ) * (mult : ℚ) :=
          mul_nonneg hs hm2
        refine ⟨by simp only; linarith, by simp only; linarith, fun hmid => ?_⟩
        simp only at hmid ⊢
        have h100 : (0 : ℝ) ≤ 100 := by norm_num
        exact mul_nonneg (div_nonneg (by linarith) hmid.le) h100

/-- Witness for C4: one candle at close 4 with period 1 and multiplier 2
gives the degenerate bands `(4, 4, 4)` with width 0. -/
theorem bollinger_order_witness :
    (Bands.mk (4 : ℝ) 4 4 0).lower ≤ (Bands.mk (4 : ℝ) 4 4 0).middle ∧
    (Bands.mk (4 : ℝ) 4 4 0).middle ≤ (Bands.mk (4 : ℝ) 4 4 0).upper ∧
    (0 < (Bands.mk (4 : ℝ) 4 4 0).middle → 0 ≤ (Bands.mk (4 : ℝ) 4 4 0).width) :=
  bollinger_order [mkCandle 4] 1 2 (by norm_num) _
    (by norm_num [calculateBollingerBands, calculateSMA, mkCandle, Real.sqrt_zero])

/-- Counterexample for C4: on the two negative closes of `negData`
(length 2 ≥ period 2, default multiplier 2) the bands are computed and the
returned width is `-200 < 0`, refuting the unconditional `width ≥ 0`. -/
theorem bollinger_width_neg :
    calculateBollingerBands negData 2 2 =
      some { upper := 0, middle := -2, lower := -4, width := -200 } ∧
    ({ upper := 0, middle := -2, lower := -4, width := -200 } : Bands ℝ).width < 0 := by
  constructor
  · norm_num [calculateBollingerBands, calculateSMA, negData, mkCandle]
  · norm_num

/-- C5: every emitted double top (resp. double bottom) has confidence
exactly 75 and level equal to the average of the two most recent local
highs (resp. lows); none is emitted when the relative difference of those
two extremes is at least 1%. -/
theorem doublePattern_spec (data : List Candle) :
    (∀ p ∈ detectDoubleTopBottom data,
      (p.ptype = PatternType.DOUBLE_TOP →
        p.confidence = 75 ∧ ∃ a b, lastTwo (localHighs data) = some (a, b) ∧
          p.level = (a.2 + b.2) / 2) ∧
      (p.ptype = PatternType.DOUBLE_BOTTOM →
        p.confidence = 75 ∧ ∃ a b, lastTwo (localLows data) = some (a, b) ∧
          p.level = (a.2 + b.2) / 2)) ∧
    (∀ a b, lastTwo (localHighs data) = some (a, b) →
      1 / 100 ≤ |a.2 - b.2| / ((a.2 + b.2) / 2) →
      ∀ p ∈ detectDoubleTopBottom data, p.ptype ≠ PatternType.DOUBLE_TOP) ∧
    (∀ a b, lastTwo (localLows data) = some (a, b) →
      1 / 100 ≤ |a.2 - b.2| / ((a.2 + b.2) / 2) →
      ∀ p ∈ detectDoubleTopBottom data, p.ptype ≠ PatternType.DOUBLE_BOTTOM) := by
  refine ⟨?_, ?_, ?_⟩
  · intro p hp
    rcases List.mem_append.mp hp with h | h
    · obtain ⟨a, b, hab, _, rfl⟩ := mem_doubleTops h
      exact ⟨fun _ => ⟨rfl, a, b, hab, rfl⟩, fun hcontra => by simp at hcontra⟩
    · obtain ⟨a, b, hab, _, rfl⟩ := mem_doubleBottoms h
      exact ⟨fun hcontra => by simp at hcontra, fun _ => ⟨rfl, a, b, hab, rfl⟩⟩
  · intro a b hab hge p hp
    rcases List.mem_append.mp hp with h | h
    · obtain ⟨a2, b2, hab2, hlt, rfl⟩ := mem_doubleTops h
      rw [hab] at hab2
      obtain ⟨rfl, rfl⟩ : a = a2 ∧ b = b2 := by
        have h2 := Option.some.inj hab2
        exact ⟨congrArg Prod.fst h2, congrArg Prod.snd h2⟩
      exact absurd hlt (not_lt.mpr hge)
    · obtain ⟨a2, b2, hab2, hlt, rfl⟩ := mem_doubleBottoms h
      simp
  · intro a b hab hge p hp
    rcases List.mem_append.mp hp with h | h
    · obtain ⟨a2, b2, hab2, hlt, rfl⟩ := mem_doubleTops h
      simp
    · obtain ⟨a2, b2, hab2, hlt, rfl⟩ := mem_doubleBottoms h
      rw [hab] at hab2
      obtain ⟨rfl, rfl⟩ : a = a2 ∧ b = b2 := by
        have h2 := Option.some.inj hab2
        exact ⟨congrArg Prod.fst h2, congrArg Prod.snd h2⟩
      exact absurd hlt (not_lt.mpr hge)

/-- Witness for C5: on `wTopData` a double top is emitted, with
confidence 75 and level 10 = average of its two equal local highs. -/
theorem doublePattern_spec_witness :
    ({ ptype := PatternType.DOUBLE_TOP, confidence := 75,
       description := topDesc, level := 10 } : Pattern).confidence = 75 ∧
    ∃ a b, lastTwo (localHighs wTopData) = some (a, b) ∧
      ({ ptype := PatternType.DOUBLE_TOP, confidence := 75,
         description := topDesc, level := 10 } : Pattern).level = (a.2 + b.2) / 2 :=
  ((doublePattern_spec wTopData).1 _ (by
      have hH : localHighs wTopData = [(1, 10), (3, 10)] := by
        norm_num [localHighs, wTopData, highAt, mkCandle, List.range_succ,
          List.filterMap_cons]
      have hL : localLows wTopData = [(2, 1)] := by
        norm_num [localLows, wTopData, lowAt, mkCandle, List.range_succ,
          List.filterMap_cons]
      have hd : detectDoubleTopBottom wTopData =
          [{ ptype := PatternType.DOUBLE_TOP, confidence := 75,
             description := topDesc, level := 10 }] := by
        norm_num [detectDoubleTopBottom, doubleTops, doubleBottoms, hH, hL, lastTwo]
      rw [hd]
      exact List.mem_singleton.mpr rfl)).1 rfl

/-- C6: below 20 candles pattern detection returns the empty list. -/
theorem detectPatterns_short (data : List Candle) (h : data.length < 20) :
    detectPatterns data = [] := by
  simp [detectPatterns, h]

/-- Witness for C6: exactly 19 candles give the empty pattern list. -/
theorem detectPatterns_short_witness :
    detectPatterns (List.replicate 19 (mkCandle 3)) = [] :=
  detectPatterns_short _ (by simp)

/-- C7 (amended): whenever both moving averages are available AND nonzero
(the source guards with the truthiness test `sma20 && sma50`, which also
skips a zero average), the moving-average block adds exactly 15 confidence
and one rationale entry iff price > MA20 > MA50 with a BUY-family
classification or price < MA20 < MA50 with a SELL-family classification;
and the classification of the final signal is always the one fixed by the
RSI block, so this step never changes it. -/
theorem maBlock_spec :
    (∀ (a b price : ℚ) (sig : SignalType), a ≠ 0 → b ≠ 0 →
      ((maConf (some a) (some b) price sig = 15 ∧
          (maReasons (some a) (some b) price sig).length = 1) ↔
        ((a < price ∧ b < a ∧ includesBUY sig = true) ∨
          (price < a ∧ a < b ∧ includesSELL sig = true)))) ∧
    (∀ (s20 s50 e12 : Option ℚ) (r : ℚ) (bb : Option (Bands ℚ))
        (prices : List Candle) (pats : List Pattern), r ≠ 0 → prices.length ≠ 0 →
      (generateSignal ⟨s20, s50, e12, some r, bb⟩ prices pats).signal = rsiSignal r) := by
  constructor
  · intro a b price sig ha hb
    have hz : ¬(a = 0 ∨ b = 0) := by tauto
    simp only [maConf, maReasons, if_neg hz]
    split_ifs with h1 h2 <;> simp_all
  · intro s20 s50 e12 r bb prices pats hr hp
    simp only [generateSignal]
    rw [if_neg (by tauto)]

/-- Counterexample for C7: with MA20 = 0 available, MA50 = -1 available,
price 1 and a BUY classification the bullish condition holds, yet the
block adds 0 confidence and no rationale, because 0 is falsy. -/
theorem maBlock_zero_skipped :
    ((0 : ℚ) < 1 ∧ (-1 : ℚ) < 0 ∧ includesBUY SignalType.BUY = true) ∧
    maConf (some 0) (some (-1)) 1 SignalType.BUY = 0 ∧
    maReasons (some 0) (some (-1)) 1 SignalType.BUY = [] := by
  refine ⟨⟨by norm_num, by norm_num, by decide⟩, by simp [maConf], by simp [maReasons]⟩

/-- Witness for C7: nonzero averages 2 and 1 with price 3 and BUY. -/
theorem maBlock_spec_witness :
    ((maConf (some 2) (some 1) 3 SignalType.BUY = 15 ∧
        (maReasons (some 2) (some 1) 3 SignalType.BUY).length = 1) ↔
      (((2 : ℚ) < 3 ∧ (1 : ℚ) < 2 ∧ includesBUY SignalType.BUY = true) ∨
        ((3 : ℚ) < 2 ∧ (2 : ℚ) < 1 ∧ includesSELL SignalType.BUY = true))) ∧
    (generateSignal ⟨none, none, none, some 30, none⟩ [mkCandle 5] []).signal =
      rsiSignal 30 :=
  ⟨maBlock_spec.1 2 1 3 SignalType.BUY (by norm_num) (by norm_num),
    maBlock_spec.2 none none none 30 none [mkCandle 5] [] (by norm_num) (by simp)⟩

/-- C8: on at least 50 candles of constantly equal closes the oscillator
takes the zero-average-loss branch and returns 100, and the synthesized
signal is classified STRONG_SELL whatever the other indicators are. -/
theorem flat_closes_strong_sell (data : List Candle) (c : ℚ)
    (h50 : 50 ≤ data.length) (hc : ∀ x ∈ data, x.close = c) :
    calculateRSI data 14 = some 100 ∧
    ∀ (s20 s50 e12 : Option ℚ) (bb : Option (Bands ℚ)) (pats : List Pattern),
      (generateSignal ⟨s20, s50, e12, calculateRSI data 14, bb⟩ data pats).signal =
        SignalType.STRONG_SELL := by
  have hchanges := rsiChanges_flat data c 14 (by omega) hc
  have hloss : rsiLosses data 14 = 0 := by
    unfold rsiLosses
    apply List.sum_eq_zero
    intro x hx
    obtain ⟨y, hy, rfl⟩ := List.mem_map.mp hx
    rw [hchanges y (List.mem_of_mem_filter hy)]
    simp
  have h1 : calculateRSI data 14 = some 100 := by
    rw [calculateRSI, if_neg (by omega)]
    simp [hloss]
  refine ⟨h1, fun s20 s50 e12 bb pats => ?_⟩
  simp only [generateSignal, h1]
  rw [if_neg (by push_neg; exact ⟨by norm_num, by omega⟩)]
  norm_num [rsiSignal]

/-- Witness for C8: 50 candles at close 7. -/
theorem flat_closes_strong_sell_witness :
    (generateSignal
        ⟨none, none, none, calculateRSI (List.replicate 50 (mkCandle 7)) 14, none⟩
        (List.replicate 50 (mkCandle 7)) []).signal = SignalType.STRONG_SELL :=
  (flat_closes_strong_sell _ 7 (by simp)
    (fun x hx => by rw [List.eq_of_mem_replicate hx]; rfl)).2 none none none none []

/-- C9: the confidence of the synthesized signal never exceeds 95, for
every indicator record, price list and pattern list. -/
theorem generateSignal_confidence_le (ind : Indicators) (prices : List Candle)
    (pats : List Pattern) : (generateSignal ind prices pats).confidence ≤ 95 := by
  obtain ⟨s20, s50, e12, r, bb⟩ := ind
  match r with
  | none => simp [generateSignal, noDataSignal]
  | some v =>
    simp only [generateSignal]
    split
    · simp [noDataSignal]
    · exact min_le_right _ _

/-- C10: the pattern list never influences classification, confidence or
rationale of the synthesized signal, and the patterns appear in the output
only as the first three entries (the `NO_DATA` record carries none). -/
theorem generateSignal_patterns_frame (ind : Indicators) (prices : List Candle)
    (pats pats2 : List Pattern) :
    ((generateSignal ind prices pats).signal = (generateSignal ind prices pats2).signal ∧
      (generateSignal ind prices pats).confidence =
        (generateSignal ind prices pats2).confidence ∧
      (generateSignal ind prices pats).reasons = (generateSignal ind prices pats2).reasons) ∧
    ((generateSignal ind prices pats).patterns = pats.take 3 ∨
      generateSignal ind prices pats = noDataSignal) := by
  obtain ⟨s20, s50, e12, r, bb⟩ := ind
  match r with
  | none => simp [generateSignal]
  | some v =>
    simp only [generateSignal]
    split
    · simp
    · simp
